import Mathlib

/-!
Verification of the telegram-drive core against its source.

The definitions below are a shallow embedding of `src/lib/telegram.ts`
(`uploadToTelegram`, `createFolder`, `getFiles`, `getFileUrl`) and of the
navigation / fetch-application handlers of `src/components/FileViewer.tsx`
(`handleFolderClick`, `handleBackClick`, `fetchItems`).  JavaScript string
operations (`split(':')`, `startsWith`, `||` on strings) and JS truthiness
on optional strings are modelled explicitly; the transport (`getFileUrl`,
the axios round trips) is modelled as an oracle `String → Option String`
(`none` = the call throws).
-/

namespace TelegramDrive

/-- Model of JS `s.split(':')` on the character list of `s`:
`''.split(':') = ['']`, `'a:b'.split(':') = ['a','b']`,
`'folder:'.split(':') = ['folder','']`. -/
def splitColonList : List Char → List String
  | [] => [""]
  | c :: cs =>
    if c = ':' then "" :: splitColonList cs
    else
      match splitColonList cs with
      | [] => [String.mk [c]]
      | s :: ss => String.mk (c :: s.data) :: ss

/-- JS `s.split(':')`. -/
def jsSplitColon (s : String) : List String :=
  splitColonList s.data

/-- JS `s.startsWith(pre)`. -/
def strStartsWith (s pre : String) : Bool :=
  pre.data.isPrefixOf s.data

/-- `true` when the string contains no `':'` character. -/
def noColon (s : String) : Bool :=
  s.data.all (fun c => c != ':')

/-- JS `a || d` for an optional string `a` (absent or empty falls back). -/
def jsOr (o : Option String) (d : String) : String :=
  match o with
  | none => d
  | some s => if s = "" then d else s

/-- JS truthiness of an optional string (`undefined` and `''` are falsy). -/
def jsTruthy (o : Option String) : Bool :=
  match o with
  | none => false
  | some s => !(s == "")

/-- The guard `parentId && fieldParent !== parentId` of `getFiles`
(src/lib/telegram.ts lines 152 and 167): `true` means the record is
dropped from the result. -/
def jsFilterOut (parentId fieldParent : Option String) : Bool :=
  if jsTruthy parentId then !(fieldParent == parentId) else false

/-- The caption built by `uploadToTelegram` (src/lib/telegram.ts lines
34-36): `caption = "parent:" + parentId` appended only when `parentId`
is truthy, otherwise no caption at all. -/
def encodeFileCaption : Option String → Option String
  | some p => if p = "" then none else some ("parent:" ++ p)
  | none => none

/-- The text built by `createFolder` (src/lib/telegram.ts line 106):
`folder:${name}${parentId ? `:${parentId}` : ''}`. -/
def encodeFolderText (name : String) (parentId : Option String) : String :=
  "folder:" ++ name ++
    (match parentId with
     | some p => if p = "" then "" else ":" ++ p
     | none => "")

/-- The caption parse of `getFiles` (src/lib/telegram.ts lines 149-150):
`caption = message.caption || ''`;
`caption.startsWith('parent:') ? caption.split(':')[1] : undefined`. -/
def fileParentIdOfCaption (caption : Option String) : Option String :=
  let c := caption.getD ""
  if strStartsWith c "parent:" then (jsSplitColon c).get? 1 else none

/-- The folder-text parse of `getFiles` (src/lib/telegram.ts line 165):
`const [, folderName, folderParentId] = message.text.split(':')`. -/
def folderFieldsOfText (txt : String) : String × Option String :=
  let parts := jsSplitColon txt
  (((parts.get? 1)).getD "", parts.get? 2)

/-- `message.document` of a raw Telegram update. -/
structure TgDocument where
  file_id : String
  mime_type : Option String
  file_name : Option String
  thumb_id : Option String
deriving DecidableEq, Repr

/-- `update.message` of a raw Telegram update. -/
structure TgMessage where
  message_id : Nat
  document : Option TgDocument
  text : Option String
  caption : Option String
deriving DecidableEq, Repr

/-- One element of `response.data.result` of `getUpdates`. -/
structure TgUpdate where
  message : Option TgMessage
deriving DecidableEq, Repr

/-- The `TelegramFile` interface of src/lib/telegram.ts.  The field
`mime` models `type`; it is optional because the record returned by
`uploadToTelegram` copies `mime_type` verbatim and that transport field
may be absent. -/
structure TelegramFile where
  id : String
  url : String
  mime : Option String
  name : String
  preview : Option String
  parentId : Option String
deriving DecidableEq, Repr

/-- The `TelegramFolder` interface of src/lib/telegram.ts. -/
structure TelegramFolder where
  id : String
  name : String
  parentId : Option String
deriving DecidableEq, Repr

/-- `TelegramFile | TelegramFolder`. -/
inductive Item where
  | file : TelegramFile → Item
  | folder : TelegramFolder → Item
deriving DecidableEq, Repr

/-- The `parentId` field of either record kind. -/
def itemParentId : Item → Option String
  | .file f => f.parentId
  | .folder g => g.parentId

/-- The file record built by the document branch of `getFiles`
(src/lib/telegram.ts lines 156-163), with the JS `||` fallbacks for
`mime_type` and `file_name`. -/
def decodeDocRecord (doc : TgDocument) (fparent : Option String)
    (url : String) (preview : Option String) : TelegramFile :=
  { id := doc.file_id
    url := url
    mime := some (jsOr doc.mime_type "application/octet-stream")
    name := jsOr doc.file_name ("file_" ++ doc.file_id)
    preview := preview
    parentId := fparent }

/-- One iteration of the `getFiles` map (src/lib/telegram.ts lines
142-178): `.ok none` models an entry pre-filtered out, decoded to `null`,
or dropped by the `parentId` guard; `.error ()` models a rejected
`getFileUrl` round trip (which rejects the whole `Promise.all`).  The
blob URL of a document is resolved before the `parentId` guard runs;
the thumb URL only after it. -/
def processUpdate (resolve : String → Option String)
    (parentId : Option String) (u : TgUpdate) : Except Unit (Option Item) :=
  match u.message with
  | none => .ok none
  | some m =>
    match m.document with
    | some doc =>
      match resolve doc.file_id with
      | none => .error ()
      | some url =>
        let fparent := fileParentIdOfCaption m.caption
        if jsFilterOut parentId fparent then .ok none
        else
          match doc.thumb_id with
          | none => .ok (some (.file (decodeDocRecord doc fparent url none)))
          | some t =>
            match resolve t with
            | none => .error ()
            | some purl =>
              .ok (some (.file (decodeDocRecord doc fparent url (some purl))))
    | none =>
      match m.text with
      | none => .ok none
      | some txt =>
        if strStartsWith txt "folder:" then
          let fields := folderFieldsOfText txt
          if jsFilterOut parentId fields.2 then .ok none
          else
            .ok (some (.folder
              { id := toString m.message_id
                name := fields.1
                parentId := fields.2 }))
        else .ok none

/-- `null`-dropping cons, modelling `items.filter(Boolean)`. -/
def consOpt (o : Option Item) (l : List Item) : List Item :=
  match o with
  | none => l
  | some x => x :: l

/-- The decode of one page of updates, in page order; any rejected
round trip rejects the whole page (`Promise.all` semantics). -/
def decodePage (resolve : String → Option String) (parentId : Option String) :
    List TgUpdate → Except Unit (List Item)
  | [] => .ok []
  | u :: us =>
    match processUpdate resolve parentId u with
    | .error e => .error e
    | .ok o =>
      match decodePage resolve parentId us with
      | .error e => .error e
      | .ok rest => .ok (consOpt o rest)

/-- `getFiles(parentId)` on a page of raw updates (src/lib/telegram.ts
lines 129-192), given the `getFileUrl` oracle `resolve`. -/
def getFiles (resolve : String → Option String) (parentId : Option String)
    (page : List TgUpdate) : Except Unit (List Item) :=
  decodePage resolve parentId page

/-- The `getFileUrl` calls issued while processing one update: for a
document entry the blob resolve is issued unconditionally (before the
`parentId` guard); the thumb resolve is issued only when the first
resolve succeeded, the guard passed and a thumb is present. -/
def resolveCallsOfUpdate (resolve : String → Option String)
    (parentId : Option String) (u : TgUpdate) : List String :=
  match u.message with
  | none => []
  | some m =>
    match m.document with
    | some doc =>
      doc.file_id ::
        (match resolve doc.file_id with
         | none => []
         | some _ =>
           if jsFilterOut parentId (fileParentIdOfCaption m.caption) then []
           else
             match doc.thumb_id with
             | none => []
             | some t => [t])
    | none => []

/-- Navigation state of `FileViewer` (src/components/FileViewer.tsx lines
30-31): `currentFolder : string | undefined`, `folderHistory : string[]`. -/
structure NavState where
  currentFolder : Option String
  folderHistory : List String
deriving DecidableEq, Repr

/-- `handleFolderClick` (src/components/FileViewer.tsx lines 52-55):
pushes `currentFolder || ''` onto the history and moves into the target. -/
def handleFolderClick (st : NavState) (folderId : String) : NavState :=
  { currentFolder := some folderId
    folderHistory := st.folderHistory ++ [st.currentFolder.getD ""] }

/-- `handleBackClick` (src/components/FileViewer.tsx lines 57-61):
`pop()` the last history element (or `undefined` when empty) into
`currentFolder`. -/
def handleBackClick (st : NavState) : NavState :=
  { currentFolder := st.folderHistory.getLast?
    folderHistory := st.folderHistory.dropLast }

/-- The part of the `FileViewer` state a completing fetch touches. -/
structure ViewState where
  currentFolder : Option String
  items : List Item
deriving DecidableEq, Repr

/-- A fetch issued for folder `tag` completing while the viewer is in
state `st` (src/components/FileViewer.tsx lines 37-50): on success
`setItems(fetchedItems)` runs unconditionally — `fetchItems` never
compares `tag` with the current folder; on failure only the error flag
changes, so `items` is untouched. -/
def applyFetch (resolve : String → Option String) (st : ViewState)
    (tag : Option String) (page : List TgUpdate) : ViewState :=
  match getFiles resolve tag page with
  | .ok its => { st with items := its }
  | .error _ => st

/-- `response.data.result.document` plus `response.data.ok` for
`sendDocument` as read by `uploadToTelegram`. -/
structure TgSendResponse where
  ok : Bool
  file_id : String
  mime_type : Option String
deriving DecidableEq, Repr

/-- The record returned by `uploadToTelegram` (src/lib/telegram.ts lines
55-64): `none` models a thrown error (network failure, `ok:false`, or a
rejected `getFileUrl`).  `type` copies `mime_type` verbatim — no
fallback — and `name` is the caller-supplied `fileName`. -/
def uploadToTelegramModel (resolve : String → Option String)
    (fileName : String) (parentId : Option String)
    (resp : Option TgSendResponse) : Option TelegramFile :=
  match resp with
  | none => none
  | some r =>
    if r.ok then
      match resolve r.file_id with
      | none => none
      | some url =>
        some { id := r.file_id, url := url, mime := r.mime_type,
               name := fileName, preview := none, parentId := parentId }
    else none

/-- JS `Math.round(num / den)` for naturals (`den > 0`):
`floor(num/den + 1/2) = (2*num + den) / (2*den)`. -/
def jsRound (num den : Nat) : Nat :=
  (2 * num + den) / (2 * den)

/-- One upload as `uploadToTelegram` observes it: the progress events
delivered by the transport during the transfer (a shared `total` and the
successive `loaded` values) and then the response (absent = network
error). -/
structure UploadRun where
  total : Nat
  loads : List Nat
  response : Option TgSendResponse
deriving DecidableEq, Repr

/-- The values passed to `onProgress` (src/lib/telegram.ts lines 46-51):
events with a falsy `total` are skipped, otherwise
`Math.round(loaded * 100 / total)` is forwarded. -/
def runProgress (r : UploadRun) : List Nat :=
  if r.total = 0 then [] else r.loads.map (fun l => jsRound (l * 100) r.total)

/-- Whether the upload succeeds: a response arrived and `ok` is set
(src/lib/telegram.ts line 55); otherwise `uploadToTelegram` throws. -/
def runSucceeds (r : UploadRun) : Bool :=
  match r.response with
  | some resp => resp.ok
  | none => false

/-- Keep an optional decoded item only when its `parentId` is `some F`:
the shape the `parentId` guard of `getFiles` gives one map slot, used to
relate a folder fetch to the unfiltered decode of the same page. -/
def optKeep (F : String) : Option Item → Option Item
  | none => none
  | some it => if itemParentId it == some F then some it else none

instance {α : Type} [DecidableEq α] : DecidableEq (Except Unit α) := fun a b =>
  match a, b with
  | .ok x, .ok y =>
    if h : x = y then .isTrue (by rw [h]) else .isFalse (by simp [h])
  | .error x, .error y => .isTrue (by cases x; cases y; rfl)
  | .ok _, .error _ => .isFalse (fun h => Except.noConfusion h)
  | .error _, .ok _ => .isFalse (fun h => Except.noConfusion h)

/-! ### Concrete fixtures used by counterexamples and witnesses -/

/-- A total `getFileUrl` oracle. -/
def cRes : String → Option String := fun s => some ("u/" ++ s)

/-- A `getFileUrl` oracle whose round trip for `"fX"` rejects. -/
def badRes : String → Option String :=
  fun s => if s = "fX" then none else some ("u/" ++ s)

/-- A document with no mime type, no file name and no thumb. -/
def docX : TgDocument := ⟨"fX", none, none, none⟩

/-- A document update captioned `parent:X`. -/
def uDocX : TgUpdate := ⟨some ⟨1, some docX, none, some "parent:X"⟩⟩

/-- The record `getFiles` decodes `uDocX` into. -/
def cItemX : Item :=
  .file ⟨"fX", "u/fX", some "application/octet-stream", "file_fX", none, some "X"⟩

/-- A folder declaration `folder:docs:42` as update 7. -/
def uFolderDocs : TgUpdate := ⟨some ⟨7, none, some "folder:docs:42", none⟩⟩

/-- The record `getFiles` decodes `uFolderDocs` into. -/
def cFolderItem : Item := .folder ⟨"7", "docs", some "42"⟩

/-- A plain chat message, decodable by neither branch. -/
def uChatter : TgUpdate := ⟨some ⟨3, none, some "hello", none⟩⟩

/-! ### Helper lemmas on the string model -/

theorem data_append (s t : String) : (s ++ t).data = s.data ++ t.data := by
  cases s; cases t; rfl

theorem noColon_iff (s : String) : noColon s = true ↔ ∀ c ∈ s.data, c ≠ ':' := by
  simp [noColon, List.all_eq_true]

theorem splitColonList_noColon (l : List Char) (h : ∀ c ∈ l, c ≠ ':') :
    splitColonList l = [String.mk l] := by
  induction l with
  | nil => rfl
  | cons c cs ih =>
    have hc : c ≠ ':' := h c (by simp)
    have ih' := ih (fun x hx => h x (List.mem_cons_of_mem _ hx))
    simp [splitColonList, if_neg hc, ih']

theorem splitColonList_append (xs ys : List Char) (h : ∀ c ∈ xs, c ≠ ':') :
    splitColonList (xs ++ ':' :: ys) = String.mk xs :: splitColonList ys := by
  induction xs with
  | nil =>
    show splitColonList (':' :: ys) = String.mk [] :: splitColonList ys
    simp [splitColonList]
  | cons c cs ih =>
    have hc : c ≠ ':' := h c (by simp)
    have ih' := ih (fun x hx => h x (List.mem_cons_of_mem _ hx))
    simp [splitColonList, if_neg hc, ih']

theorem isPrefixOf_append_self (l r : List Char) : l.isPrefixOf (l ++ r) = true := by
  induction l with
  | nil => simp [List.isPrefixOf]
  | cons c cs ih => simp [List.isPrefixOf, ih]

theorem data_folderColon : ("folder:" : String).data = ("folder" : String).data ++ [':'] := by
  decide

theorem data_parentColon : ("parent:" : String).data = ("parent" : String).data ++ [':'] := by
  decide

theorem strStartsWith_folderEncode (name : String) (pid : Option String) :
    strStartsWith (encodeFolderText name pid) "folder:" = true := by
  unfold strStartsWith encodeFolderText
  rw [data_append, data_append, List.append_assoc]
  exact isPrefixOf_append_self _ _

theorem folderEncode_data_none (name : String) :
    (encodeFolderText name none).data = ("folder" : String).data ++ ':' :: name.data := by
  unfold encodeFolderText
  rw [data_append, data_append, data_folderColon]
  simp

theorem folderEncode_data_some (name p : String) (hpe : p ≠ "") :
    (encodeFolderText name (some p)).data
      = ("folder" : String).data ++ ':' :: (name.data ++ ':' :: p.data) := by
  unfold encodeFolderText
  show ("folder:" ++ name ++ (if p = "" then "" else ":" ++ p)).data = _
  rw [if_neg hpe, data_append, data_append, data_folderColon, data_append]
  have hcolon : (":" : String).data = [':'] := by decide
  rw [hcolon]
  simp

theorem jsSplitColon_folderEncode_none (name : String) (hn : noColon name = true) :
    jsSplitColon (encodeFolderText name none) = ["folder", name] := by
  have hnc := (noColon_iff name).mp hn
  unfold jsSplitColon
  rw [folderEncode_data_none, splitColonList_append _ _ (by decide),
    splitColonList_noColon _ hnc]

theorem jsSplitColon_folderEncode_some (name p : String)
    (hn : noColon name = true) (hp : noColon p = true) (hpe : p ≠ "") :
    jsSplitColon (encodeFolderText name (some p)) = ["folder", name, p] := by
  have hnc := (noColon_iff name).mp hn
  have hpc := (noColon_iff p).mp hp
  unfold jsSplitColon
  rw [folderEncode_data_some name p hpe, splitColonList_append _ _ (by decide),
    splitColonList_append _ _ hnc, splitColonList_noColon _ hpc]

theorem folderFields_encode (name : String) (pid : Option String)
    (hn : noColon name = true)
    (hp : ∀ p, pid = some p → p ≠ "" ∧ noColon p = true) :
    folderFieldsOfText (encodeFolderText name pid) = (name, pid) := by
  cases pid with
  | none =>
    simp only [folderFieldsOfText]
    rw [jsSplitColon_folderEncode_none name hn]
    rfl
  | some p =>
    obtain ⟨hpe, hpc⟩ := hp p rfl
    simp only [folderFieldsOfText]
    rw [jsSplitColon_folderEncode_some name p hn hpc hpe]
    rfl

/-! ### Helper lemmas on the page decode -/

theorem jsFilterOut_none (fp : Option String) : jsFilterOut none fp = false := rfl

theorem jsFilterOut_emptyTag (fp : Option String) : jsFilterOut (some "") fp = false := rfl

theorem jsFilterOut_someTag (F : String) (hF : F ≠ "") (fp : Option String) :
    jsFilterOut (some F) fp = !(fp == some F) := by
  simp [jsFilterOut, jsTruthy, hF]

theorem processUpdate_filter (resolve : String → Option String)
    (hres : ∀ s, (resolve s).isSome) (F : String) (hF : F ≠ "") (u : TgUpdate) :
    processUpdate resolve (some F) u
      = Except.map (optKeep F) (processUpdate resolve none u) := by
  cases u with
  | mk msg =>
    cases msg with
    | none => rfl
    | some m =>
      cases hdoc : m.document with
      | some doc =>
        obtain ⟨url, hurl⟩ := Option.isSome_iff_exists.mp (hres doc.file_id)
        by_cases hkeep : (fileParentIdOfCaption m.caption == some F) = true
        all_goals cases hth : doc.thumb_id with
        | none =>
          simp [processUpdate, hdoc, hurl, hth, jsFilterOut_someTag F hF, jsFilterOut_none,
            hkeep, optKeep, itemParentId, decodeDocRecord, Except.map]
        | some t =>
          obtain ⟨purl, hpurl⟩ := Option.isSome_iff_exists.mp (hres t)
          simp [processUpdate, hdoc, hurl, hth, hpurl, jsFilterOut_someTag F hF,
            jsFilterOut_none, hkeep, optKeep, itemParentId, decodeDocRecord, Except.map]
      | none =>
        cases htxt : m.text with
        | none => simp [processUpdate, hdoc, htxt, Except.map, optKeep]
        | some txt =>
          by_cases hsw : strStartsWith txt "folder:" = true
          · by_cases hkeep : ((folderFieldsOfText txt).2 == some F) = true <;>
              simp [processUpdate, hdoc, htxt, hsw, jsFilterOut_someTag F hF,
                jsFilterOut_none, hkeep, optKeep, itemParentId, Except.map]
          · simp [processUpdate, hdoc, htxt, hsw, Except.map, optKeep]

theorem decodePage_filter (resolve : String → Option String)
    (hres : ∀ s, (resolve s).isSome) (F : String) (hF : F ≠ "")
    (page : List TgUpdate) :
    decodePage resolve (some F) page
      = Except.map (List.filter (fun it => itemParentId it == some F))
          (decodePage resolve none page) := by
  induction page with
  | nil => rfl
  | cons u us ih =>
    have h1 := processUpdate_filter resolve hres F hF u
    cases hu : processUpdate resolve none u with
    | error e =>
      cases e
      simp only [decodePage, hu, h1, Except.map]
    | ok o =>
      cases hrest : decodePage resolve none us with
      | error e =>
        cases e
        simp only [decodePage, hu, hrest, h1, ih, Except.map]
      | ok rest =>
        simp only [decodePage, hu, hrest, h1, ih, Except.map]
        cases o with
        | none => rfl
        | some it =>
          by_cases hit : (itemParentId it == some F) = true <;>
            simp [optKeep, consOpt, hit, List.filter_cons]

theorem processUpdate_emptyTag (resolve : String → Option String) (u : TgUpdate) :
    processUpdate resolve (some "") u = processUpdate resolve none u := by
  cases u with
  | mk msg =>
    cases msg with
    | none => rfl
    | some m =>
      cases hdoc : m.document with
      | some doc =>
        cases hurl : resolve doc.file_id with
        | none => simp [processUpdate, hdoc, hurl]
        | some url =>
          simp [processUpdate, hdoc, hurl, jsFilterOut_emptyTag, jsFilterOut_none]
      | none =>
        cases htxt : m.text with
        | none => simp [processUpdate, hdoc, htxt]
        | some txt =>
          simp [processUpdate, hdoc, htxt, jsFilterOut_emptyTag, jsFilterOut_none]

/-! ### Helper lemmas on the JS rounding of progress percentages -/

theorem jsRound_total (t : Nat) (ht : t ≠ 0) : jsRound (t * 100) t = 100 := by
  unfold jsRound
  rw [show 2 * (t * 100) + t = t + 2 * t * 100 by ring]
  rw [Nat.add_mul_div_left _ _ (by omega : 0 < 2 * t)]
  rw [Nat.div_eq_of_lt (by omega : t < 2 * t)]

theorem jsRound_mono (t a b : Nat) (h : a ≤ b) :
    jsRound (a * 100) t ≤ jsRound (b * 100) t := by
  unfold jsRound
  exact Nat.div_le_div_right (by omega)

theorem jsRound_le_100 (t : Nat) (ht : t ≠ 0) (l : Nat) (h : l ≤ t) :
    jsRound (l * 100) t ≤ 100 := by
  have h1 := jsRound_mono t l t h
  rw [jsRound_total t ht] at h1
  exact h1

/-! ### Claim C1 -/

/-- C1, counterexample to the root clause: fetching with no folder id
does not restrict to records with absent `parentId` — the root listing
of a page holding one document captioned `parent:X` returns that record,
whose `parentId` is present. -/
theorem c1_counterexample :
    getFiles cRes none [uDocX] = .ok [cItemX] ∧ itemParentId cItemX ≠ none :=
  ⟨by decide, by decide⟩

/-- C1 as amended: for every nonempty requested folder id `F` (and a
transport whose blob resolution succeeds), `getFiles` returns exactly the
decoded records of the page whose `parentId` equals `F`, in page order —
the filtered form of the unfiltered decode; the root listing (`parentId`
absent) applies no filter at all and returns every decoded record,
whether its `parentId` is absent or present. -/
theorem c1_filter (resolve : String → Option String)
    (hres : ∀ s, (resolve s).isSome) (F : String) (hF : F ≠ "")
    (page : List TgUpdate) :
    getFiles resolve (some F) page
      = Except.map (List.filter (fun it => itemParentId it == some F))
          (getFiles resolve none page) :=
  decodePage_filter resolve hres F hF page

/-- C1 witness: the amended theorem evaluated on a concrete two-entry
page and folder id `X`. -/
theorem c1_witness :
    getFiles cRes (some "X") [uDocX, uFolderDocs]
      = Except.map (List.filter (fun it => itemParentId it == some "X"))
          (getFiles cRes none [uDocX, uFolderDocs]) :=
  c1_filter cRes (fun s => rfl) "X" (by decide) [uDocX, uFolderDocs]

/-! ### Claim C2 -/

/-- C2, counterexample: with `name = "a"` (no separator) and
`parentId = "x:y"`, decoding the encoded folder declaration
`folder:a:x:y` yields a FolderRecord with `parentId = some "x"`,
not `some "x:y"` — the split on `':'` truncates the parent id. -/
theorem c2_counterexample :
    processUpdate cRes none ⟨some ⟨7, none, some (encodeFolderText "a" (some "x:y")), none⟩⟩
      = .ok (some (.folder ⟨"7", "a", some "x"⟩)) ∧
    (some "x" : Option String) ≠ some "x:y" :=
  ⟨by decide, by decide⟩

/-- C2 as amended: for every `name` containing no `':'` and every
optional `parentId` that, when present, is nonempty and contains no
`':'`, decoding the folder declaration text produced by the folder
encoder yields a FolderRecord with exactly that name and that parentId
(shown through the folder branch of the page decode, on a root fetch). -/
theorem c2_roundtrip (resolve : String → Option String) (mid : Nat)
    (name : String) (pid : Option String)
    (hn : noColon name = true)
    (hp : ∀ p, pid = some p → p ≠ "" ∧ noColon p = true) :
    processUpdate resolve none ⟨some ⟨mid, none, some (encodeFolderText name pid), none⟩⟩
      = .ok (some (.folder ⟨toString mid, name, pid⟩)) := by
  simp only [processUpdate, strStartsWith_folderEncode, if_true,
    folderFields_encode name pid hn hp]
  rfl

/-- C2 witness: round trip of `name = "docs"`, `parentId = "42"`. -/
theorem c2_witness :
    processUpdate cRes none ⟨some ⟨7, none, some (encodeFolderText "docs" (some "42")), none⟩⟩
      = .ok (some (.folder ⟨toString 7, "docs", some "42"⟩)) :=
  c2_roundtrip cRes 7 "docs" (some "42") (by decide)
    (fun p hpe => by injection hpe with h2; subst h2; exact ⟨by decide, by decide⟩)

/-! ### Claim C3 -/

/-- C3, counterexample: a present `parentId = "a:b"` encodes to caption
`parent:a:b`, which decodes to `some "a"`, not `some "a:b"` — the split
on `':'` truncates the parent id. -/
theorem c3_counterexample :
    fileParentIdOfCaption (encodeFileCaption (some "a:b")) = some "a" ∧
    (some "a" : Option String) ≠ some "a:b" :=
  ⟨by decide, by decide⟩

/-- C3 as amended: for every `parentId` that is absent, or present,
nonempty and without `':'`, decoding the file caption produced by the
file encoder recovers exactly that `parentId` (the absent caption
decodes to an absent parentId). -/
theorem c3_roundtrip (pid : Option String)
    (hp : ∀ p, pid = some p → p ≠ "" ∧ noColon p = true) :
    fileParentIdOfCaption (encodeFileCaption pid) = pid := by
  cases pid with
  | none => rfl
  | some p =>
    obtain ⟨hpe, hpc⟩ := hp p rfl
    have hpc' := (noColon_iff p).mp hpc
    have hsw : strStartsWith ("parent:" ++ p) "parent:" = true := by
      unfold strStartsWith
      rw [data_append]
      exact isPrefixOf_append_self _ _
    have hsplit : jsSplitColon ("parent:" ++ p) = ["parent", p] := by
      unfold jsSplitColon
      rw [data_append, data_parentColon, List.append_assoc, List.singleton_append,
        splitColonList_append _ _ (by decide), splitColonList_noColon _ hpc']
    simp only [encodeFileCaption]
    rw [if_neg hpe]
    simp only [fileParentIdOfCaption, Option.getD_some, hsw, if_true]
    rw [hsplit]
    rfl

/-- C3 witness: round trip of the concrete parent id `f17`. -/
theorem c3_witness : fileParentIdOfCaption (encodeFileCaption (some "f17")) = some "f17" :=
  c3_roundtrip (some "f17")
    (fun p hpe => by injection hpe with h2; subst h2; exact ⟨by decide, by decide⟩)

/-! ### Claim C4 -/

/-- C4, counterexample: from the initial state (root, empty history),
navigating into `A` and back leaves `currentFolder = some ""`, not the
original `none` — the click pushed `currentFolder || ''`; and
back-navigation with an empty history is not a no-op on the reachable
state `⟨some "", []⟩`: it resets `currentFolder` to `none`. -/
theorem c4_counterexample :
    (handleBackClick (handleFolderClick ⟨none, []⟩ "A")).currentFolder
        ≠ (NavState.mk none []).currentFolder ∧
    handleBackClick ⟨some "", ([] : List String)⟩ ≠ ⟨some "", []⟩ :=
  ⟨by decide, by decide⟩

/-- C4 as amended: navigating into a folder pushes `currentFolder || ''`
(the empty string when at root) onto the history and moves into the
target; back-navigation pops the last pushed entry into `currentFolder`,
and with an empty history it sets `currentFolder` to `none` — a no-op
only when already at root; hence navigate-then-back yields
`some (previous or "")`: it restores `currentFolderId` exactly when a
folder id was present, and turns the absent root marker into the empty
string (which the fetch layer treats as root, see C10). -/
theorem c4_navigation (st : NavState) (f : String) (c : Option String)
    (hist : List String) (x : String) :
    handleFolderClick st f
      = ⟨some f, st.folderHistory ++ [st.currentFolder.getD ""]⟩ ∧
    handleBackClick ⟨c, []⟩ = ⟨none, []⟩ ∧
    handleBackClick ⟨c, hist ++ [x]⟩ = ⟨some x, hist⟩ ∧
    handleBackClick (handleFolderClick st f)
      = ⟨some (st.currentFolder.getD ""), st.folderHistory⟩ := by
  refine ⟨rfl, rfl, ?_, ?_⟩
  · simp [handleBackClick, List.getLast?_concat, List.dropLast_concat]
  · simp [handleBackClick, handleFolderClick, List.getLast?_concat, List.dropLast_concat]

/-! ### Claim C5 -/

/-- C5, counterexample: fetching folder `Y` over a page whose document
is captioned `parent:X` filters the record out, yet its blob resolution
call is still issued — resolution happens before the `parentId` guard. -/
theorem c5_counterexample :
    processUpdate cRes (some "Y") uDocX = .ok none ∧
    resolveCallsOfUpdate cRes (some "Y") uDocX = ["fX"] ∧
    (["fX"] : List String) ≠ [] :=
  ⟨by decide, by decide, by decide⟩

/-- C5 as amended: the blob-URL resolution for a document entry is
issued for every document of the page, whether or not it passes the
`parentId` filter (for a filtered-out document it is exactly the one
call issued); only the preview (thumb) resolution is restricted to
records passing the filter. -/
theorem c5_resolution (resolve : String → Option String) (p : Option String)
    (u : TgUpdate) (m : TgMessage) (doc : TgDocument)
    (hm : u.message = some m) (hd : m.document = some doc) :
    doc.file_id ∈ resolveCallsOfUpdate resolve p u ∧
    (jsFilterOut p (fileParentIdOfCaption m.caption) = true →
      resolveCallsOfUpdate resolve p u = [doc.file_id]) := by
  simp only [resolveCallsOfUpdate, hm, hd]
  constructor
  · exact List.mem_cons_self _ _
  · intro hf
    cases resolve doc.file_id with
    | none => rfl
    | some url => simp [hf]

/-- C5 witness: the amended theorem on the concrete filtered-out
document update. -/
theorem c5_witness : resolveCallsOfUpdate cRes (some "Y") uDocX = [docX.file_id] :=
  (c5_resolution cRes (some "Y") uDocX ⟨1, some docX, none, some "parent:X"⟩ docX
    rfl rfl).2 (by decide)

/-! ### Claim C6 -/

/-- C6, counterexample: one entry whose blob resolution fails aborts the
whole page — `getFiles` rejects, and the well-formed folder entry of the
same page (which decodes fine on its own) does not appear in any result. -/
theorem c6_counterexample :
    getFiles badRes none [uDocX, uFolderDocs] = .error () ∧
    getFiles badRes none [uFolderDocs] = .ok [cFolderItem] :=
  ⟨by decide, by decide⟩

/-- C6 as amended: an entry that fails to decode (no decodable shape, or
dropped by the filter) is skipped and the rest of the page decodes as if
the entry were absent; but an entry whose blob resolution fails aborts
the whole page fetch (`Promise.all` rejection), rather than being
skipped. -/
theorem c6_skip (resolve : String → Option String) (p : Option String)
    (bad : TgUpdate) (xs ys : List TgUpdate) :
    (processUpdate resolve p bad = .ok none →
      getFiles resolve p (xs ++ bad :: ys) = getFiles resolve p (xs ++ ys)) ∧
    (processUpdate resolve p bad = .error () →
      getFiles resolve p (xs ++ bad :: ys) = .error ()) := by
  constructor
  · intro h
    induction xs with
    | nil =>
      show decodePage resolve p (bad :: ys) = decodePage resolve p ys
      simp only [decodePage, h]
      cases decodePage resolve p ys <;> rfl
    | cons v vs ih =>
      show decodePage resolve p (v :: (vs ++ bad :: ys)) = decodePage resolve p (v :: (vs ++ ys))
      simp only [getFiles] at ih
      simp only [decodePage]
      rw [ih]
  · intro h
    induction xs with
    | nil =>
      show decodePage resolve p (bad :: ys) = .error ()
      simp [decodePage, h]
    | cons v vs ih =>
      show decodePage resolve p (v :: (vs ++ bad :: ys)) = .error ()
      simp only [getFiles] at ih
      simp only [decodePage]
      rw [ih]
      cases processUpdate resolve p v with
      | error e => cases e; rfl
      | ok o => rfl

/-- C6 witness: skipping a plain chat message leaves the rest of the
page decode unchanged. -/
theorem c6_witness :
    getFiles cRes none [uChatter, uFolderDocs] = getFiles cRes none [uFolderDocs] :=
  (c6_skip cRes none uChatter [] [uFolderDocs]).1 (by decide)

/-! ### Claim C7 -/

/-- C7, counterexample: a fetch issued for root (tag `none`) completes
while `currentFolder = some "B"`; its result is applied to `items`
anyway — the stale result is rendered, not discarded. -/
theorem c7_counterexample :
    (applyFetch cRes ⟨some "B", []⟩ none [uFolderDocs]).items = [cFolderItem] ∧
    (none : Option String) ≠ some "B" ∧
    ([cFolderItem] : List Item) ≠ [] :=
  ⟨by decide, by decide, by decide⟩

/-- C7 as amended: the viewer applies every successfully completing
fetch to `items` unconditionally — `fetchItems` keeps no tag and never
compares the folder id the fetch was issued for with the current one, so
a late result is rendered regardless of navigation (last arrival wins);
`currentFolder` itself is untouched by the application. -/
theorem c7_apply (resolve : String → Option String) (st : ViewState)
    (tag : Option String) (page : List TgUpdate) (its : List Item)
    (h : getFiles resolve tag page = .ok its) :
    applyFetch resolve st tag page = ⟨st.currentFolder, its⟩ := by
  simp [applyFetch, h]

/-- C7 witness: the amended theorem on the concrete stale arrival. -/
theorem c7_witness :
    applyFetch cRes ⟨some "B", []⟩ none [uFolderDocs] = ⟨some "B", [cFolderItem]⟩ :=
  c7_apply cRes ⟨some "B", []⟩ none [uFolderDocs] [cFolderItem] (by decide)

/-! ### Claim C8 -/

/-- C8, counterexample: an upload whose body transfers fully (one
progress event with `loaded = total`) but whose response carries
`ok:false` fails — yet the callback value `100` was delivered before the
failure, so a terminal failure does not preclude a `100` callback. -/
theorem c8_counterexample :
    runSucceeds ⟨1, [1], some ⟨false, "f1", none⟩⟩ = false ∧
    runProgress ⟨1, [1], some ⟨false, "f1", none⟩⟩ = [100] :=
  ⟨by decide, by decide⟩

/-- C8 as amended: given transport progress events with a fixed nonzero
total, non-decreasing `loaded` values bounded by the total, the
forwarded callback values are monotonically non-decreasing and lie in
`[0, 100]`, and when the transfer ends with `loaded = total` (as on a
completed body) the final callback value is exactly `100`; but whether
the upload then succeeds is decided only by the response, so a failing
upload may already have delivered `100` (no callback is suppressed on
failure). -/
theorem c8_progress (r : UploadRun) (h0 : r.total ≠ 0)
    (hmono : List.Chain' (· ≤ ·) r.loads)
    (hle : ∀ l ∈ r.loads, l ≤ r.total) :
    List.Chain' (· ≤ ·) (runProgress r) ∧
    (∀ v ∈ runProgress r, v ≤ 100) ∧
    (r.loads.getLast? = some r.total → (runProgress r).getLast? = some 100) := by
  refine ⟨?_, ?_, ?_⟩
  · rw [runProgress, if_neg h0, List.chain'_map]
    exact hmono.imp (fun a b hab => jsRound_mono r.total a b hab)
  · intro v hv
    rw [runProgress, if_neg h0] at hv
    obtain ⟨l, hl, rfl⟩ := List.mem_map.mp hv
    exact jsRound_le_100 r.total h0 l (hle l hl)
  · intro hlast
    rw [runProgress, if_neg h0, List.getLast?_map, hlast]
    simp [jsRound_total r.total h0]

/-- C8 witness: the amended theorem on a three-event successful run
with total `2`. -/
theorem c8_witness :
    List.Chain' (· ≤ ·) (runProgress ⟨2, [0, 1, 2], some ⟨true, "f2", some "video/webm"⟩⟩) ∧
    (∀ v ∈ runProgress ⟨2, [0, 1, 2], some ⟨true, "f2", some "video/webm"⟩⟩, v ≤ 100) ∧
    ((⟨2, [0, 1, 2], some ⟨true, "f2", some "video/webm"⟩⟩ : UploadRun).loads.getLast? = some 2 →
      (runProgress ⟨2, [0, 1, 2], some ⟨true, "f2", some "video/webm"⟩⟩).getLast? = some 100) :=
  c8_progress ⟨2, [0, 1, 2], some ⟨true, "f2", some "video/webm"⟩⟩
    (by decide) (by simp [List.chain'_cons]) (by decide)

/-! ### Claim C9 -/

/-- C9, counterexample: a successful upload whose transport response
carries no `mime_type` returns a FileRecord whose mime field is absent —
the upload path applies no `application/octet-stream` fallback. -/
theorem c9_counterexample :
    (uploadToTelegramModel cRes "a.png" none (some ⟨true, "f1", none⟩)).map TelegramFile.mime
      = some none ∧
    (some (none : Option String)) ≠ some (some "application/octet-stream") :=
  ⟨by decide, by decide⟩

/-- C9 as amended: the page decode applies both fallbacks — a missing
transport MIME type becomes `application/octet-stream` and a missing
display name becomes `file_` followed by the record id; the record
returned by the upload coordinator instead copies the transport
`mime_type` verbatim with no fallback and always uses the caller-supplied
`fileName` (never a synthesized name). -/
theorem c9_fallbacks (doc : TgDocument) (fp : Option String) (url : String)
    (prev : Option String) (resolve : String → Option String)
    (fileName : String) (pid : Option String)
    (r : TgSendResponse) (u : String)
    (hok : r.ok = true) (hres : resolve r.file_id = some u) :
    (doc.mime_type = none →
      (decodeDocRecord doc fp url prev).mime = some "application/octet-stream") ∧
    (doc.file_name = none →
      (decodeDocRecord doc fp url prev).name = "file_" ++ doc.file_id) ∧
    uploadToTelegramModel resolve fileName pid (some r)
      = some ⟨r.file_id, u, r.mime_type, fileName, none, pid⟩ := by
  refine ⟨?_, ?_, ?_⟩
  · intro h
    simp [decodeDocRecord, jsOr, h]
  · intro h
    simp [decodeDocRecord, jsOr, h]
  · simp [uploadToTelegramModel, hok, hres]

/-- C9 witness: the amended theorem evaluated on a concrete
mime-less document and a concrete successful upload. -/
theorem c9_witness :
    uploadToTelegramModel cRes "a.png" (some "42") (some ⟨true, "f1", none⟩)
      = some ⟨"f1", "u/f1", none, "a.png", none, some "42"⟩ :=
  (c9_fallbacks docX none "u" none cRes "a.png" (some "42") ⟨true, "f1", none⟩ "u/f1"
    rfl rfl).2.2

/-! ### Claim C10 -/

/-- C10: fetching with the empty string as folder id is observably
identical to the root fetch — the truthiness guard disables the
`parentId` filter for `""` exactly as it does for an absent id, so
`getFiles ""` returns the same record sequence as `getFiles()` on every
page; this is what makes the post-back-navigation empty-string folder id
behave as root. -/
theorem c10_empty_eq_root (resolve : String → Option String) (page : List TgUpdate) :
    getFiles resolve (some "") page = getFiles resolve none page := by
  induction page with
  | nil => rfl
  | cons u us ih =>
    show decodePage resolve (some "") (u :: us) = decodePage resolve none (u :: us)
    simp only [getFiles] at ih
    simp only [decodePage, processUpdate_emptyTag resolve u]
    rw [ih]

end TelegramDrive
